import Mathlib

/-!
Shallow embedding of the `foundry-zksync` core sampled in
`crates/common/src/zk_utils/mod.rs` and `crates/forge/bin/cmd/build.rs`,
with theorems settling the specification claims about it.

Machine integers are modelled as `Fin` of the appropriate width (`U256`)
or as `Nat` bytes; fallible Rust code returns `Except`; a Rust panic is an
explicit constructor of the result type.
-/

namespace FoundryZkSync

/-! ## `zk_utils`: U256 and the two gas clamps (`mod.rs` lines 133-143) -/

/-- zkSync's `U256`: an unsigned 256-bit machine integer. -/
abbrev U256 := Fin (2 ^ 256)

/-- `pub fn fix_l2_gas_price(gas_price: U256) -> U256 {
      U256::max(gas_price, U256::from(260_000_000)) }` -/
def fix_l2_gas_price (gas_price : U256) : U256 :=
  max gas_price (260000000 : U256)

/-- `pub fn fix_l2_gas_limit(gas_limit: U256) -> U256 {
      U256::min(gas_limit, U256::from(u32::MAX >> 1)) }`
    where `u32::MAX >> 1 = 2147483647 = 2^31 - 1`. -/
def fix_l2_gas_limit (gas_limit : U256) : U256 :=
  min gas_limit ((4294967295 >>> 1 : Nat) : U256)

/-! ## `hex::decode` (the `hex` crate, as called by `get_private_key`)

The `hex` crate's `decode`: rejects inputs of odd length, then decodes
consecutive pairs of hex digits, reporting the first invalid character
and its position. -/

/-- Error type of `hex::decode` (`hex::FromHexError`, minus the
`InvalidStringLength` variant that `decode` never returns). -/
inductive FromHexError where
  | invalidHexCharacter (c : Char) (index : Nat)
  | oddLength
deriving DecidableEq, Repr

/-- The value of a single hex digit, `none` for a non-hex character. -/
def hexDigit? (c : Char) : Option Nat :=
  if '0' ≤ c ∧ c ≤ '9' then some (c.toNat - '0'.toNat)
  else if 'a' ≤ c ∧ c ≤ 'f' then some (c.toNat - 'a'.toNat + 10)
  else if 'A' ≤ c ∧ c ≤ 'F' then some (c.toNat - 'A'.toNat + 10)
  else none

/-- Decode consecutive pairs of hex digits, tracking the character index
for error reporting. -/
def decodePairs : List Char → Nat → Except FromHexError (List Nat)
  | [], _ => .ok []
  | [c], i => .error (.invalidHexCharacter c i)
  | c1 :: c2 :: rest, i =>
    match hexDigit? c1 with
    | none => .error (.invalidHexCharacter c1 i)
    | some hi =>
      match hexDigit? c2 with
      | none => .error (.invalidHexCharacter c2 (i + 1))
      | some lo =>
        match decodePairs rest (i + 2) with
        | .error e => .error e
        | .ok bs => .ok ((hi * 16 + lo) :: bs)

/-- `hex::decode`: odd-length inputs are rejected up front, otherwise the
string is decoded pairwise. -/
def hexDecode (s : String) : Except FromHexError (List Nat) :=
  if s.data.length % 2 ≠ 0 then .error .oddLength
  else decodePairs s.data 0

/-- Equality of `Except` results is decidable when both components are —
used to evaluate the embedded functions at concrete inputs. -/
instance {ε α : Type} [DecidableEq ε] [DecidableEq α] : DecidableEq (Except ε α) :=
  fun x y =>
    match x, y with
    | .ok a, .ok b =>
      if h : a = b then .isTrue (h ▸ rfl) else .isFalse fun he => h (Except.ok.inj he)
    | .error a, .error b =>
      if h : a = b then .isTrue (h ▸ rfl) else .isFalse fun he => h (Except.error.inj he)
    | .ok _, .error _ => .isFalse fun he => Except.noConfusion he
    | .error _, .ok _ => .isFalse fun he => Except.noConfusion he

/-- Rendering of `hex::FromHexError` (its `Display` impl), as interpolated
into the `get_private_key` error message. -/
def FromHexError.msg : FromHexError → String
  | .invalidHexCharacter c i =>
    "Invalid character " ++ String.mk [c] ++ " at position " ++ toString i
  | .oddLength => "Odd number of digits"

/-! ## `get_private_key` (`mod.rs` lines 94-105) -/

/-- `H256`: a fixed 32-byte value, modelled as its byte list. -/
abbrev H256 := List Nat

/-- `H256::from_slice(&val)`: copies a slice of exactly 32 bytes and
PANICS on any other length. The panic is modelled as `none`. -/
def H256.from_slice (val : List Nat) : Option H256 :=
  if val.length = 32 then some val else none

/-- Result of a call to `get_private_key`: Rust's `Result<H256>`, plus an
explicit constructor for the abort that `H256::from_slice` raises on a
slice whose length is not 32. -/
inductive PKResult where
  | ok (key : H256)
  | err (msg : String)
  | panic (msg : String)
deriving DecidableEq, Repr

/-- `pub fn get_private_key(private_key: &Option<String>) -> Result<H256>`
(`mod.rs` lines 94-105): hex-decode the string, wrap decode failures in an
"Error parsing private key" message, then `H256::from_slice` the bytes. -/
def get_private_key : Option String → PKResult
  | some pkey =>
    match hexDecode pkey with
    | .error e => .err ("Error parsing private key: " ++ e.msg)
    | .ok val =>
      match H256.from_slice val with
      | some h => .ok h
      | none => .panic "H256::from_slice: slice length is not 32"
  | none => .err "Private key was not provided. Try using --private-key flag"

/-- Whether a `get_private_key` call returned `Err`. -/
def PKResult.isErr : PKResult → Bool
  | .err _ => true
  | _ => false

/-! ## The `url` crate (`Url::parse` and accessors), as used by
`get_url_with_port`

`Url::parse` is third-party library code; it is embedded here on the
grammar `scheme ":" [ "//" [userinfo "@"] host [":" port] ] path
["?" query] ["#" fragment]` that the callers exercise, reproducing the
crate's observable accessor behaviour on it: schemes and hosts are
lowercased, ports must fit in 16 bits, a *special* scheme (http, https,
ws, wss, ftp, file) gets the empty path serialized as "/" and its default
port reported as `None` by `Url::port()`, and a URL without an authority
component has no host. A string outside this grammar parses to `none`. -/

/-- The parsed-URL record: what the accessors `scheme()`, `host_str()`,
`port()` and `path()` expose, plus the query and fragment components. -/
structure Url where
  scheme : String
  host : Option String
  port : Option Nat
  path : String
  query : Option String
  fragment : Option String
deriving DecidableEq, Repr

/-- The default port of the special schemes (`Url::port` reports `None`
when the explicit port equals it). -/
def defaultPortOf (scheme : String) : Option Nat :=
  if scheme = "http" then some 80
  else if scheme = "https" then some 443
  else if scheme = "ws" then some 80
  else if scheme = "wss" then some 443
  else if scheme = "ftp" then some 21
  else none

/-- The WHATWG special schemes. -/
def isSpecial (scheme : String) : Bool :=
  scheme = "http" ∨ scheme = "https" ∨ scheme = "ws" ∨ scheme = "wss" ∨
    scheme = "ftp" ∨ scheme = "file"

/-- Split a character list at the first character from `stops`: returns
the prefix before it and the remainder starting with it. -/
def takeUntil (stops : List Char) : List Char → List Char × List Char
  | [] => ([], [])
  | c :: rest =>
    if c ∈ stops then ([], c :: rest)
    else
      let (a, b) := takeUntil stops rest
      (c :: a, b)

/-- Split at the LAST occurrence of `sep` (the WHATWG authority parser
splits userinfo from host at the last `@`): `none` when `sep` is absent. -/
def splitAtLast (sep : Char) (cs : List Char) : Option (List Char × List Char) :=
  match takeUntil [sep] cs.reverse with
  | (_, []) => none
  | (revAfter, _ :: revBefore) => some (revBefore.reverse, revAfter.reverse)

/-- A valid scheme: a letter followed by letters, digits, `+`, `-`, `.`. -/
def validScheme (cs : List Char) : Bool :=
  match cs with
  | [] => false
  | c :: rest =>
    c.isAlpha && rest.all fun d => d.isAlphanum || d = '+' || d = '-' || d = '.'

/-- Host characters accepted by this embedding (registrable-domain
characters; anything else is a parse failure). -/
def validHostChar (c : Char) : Bool :=
  c.isAlphanum || c = '.' || c = '-' || c = '_'

/-- Parse the host part: nonempty, valid characters, lowercased. -/
def parseHost (cs : List Char) : Option String :=
  if cs = [] then none
  else if cs.all validHostChar then some (String.mk (cs.map Char.toLower))
  else none

/-- Parse the port digits: empty means no port (the crate accepts
`"http://h:"`), otherwise decimal digits fitting in 16 bits. -/
def parsePort (cs : List Char) : Option (Option Nat) :=
  if cs = [] then some none
  else if cs.all Char.isDigit then
    let v := cs.foldl (fun a c => a * 10 + (c.toNat - '0'.toNat)) 0
    if v < 65536 then some (some v) else none
  else none

/-- Parse the authority `[userinfo "@"] host [":" port]` into host and
(explicit) port. -/
def parseAuthority (auth : List Char) : Option (String × Option Nat) :=
  let hostport :=
    match splitAtLast '@' auth with
    | some (_, hp) => hp
    | none => auth
  match splitAtLast ':' hostport with
  | some (h, pstr) =>
    match parseHost h, parsePort pstr with
    | some host, some port => some (host, port)
    | _, _ => none
  | none =>
    match parseHost hostport with
    | some host => some (host, none)
    | none => none

/-- Parse `["?" query] ["#" fragment]`. -/
def parseQueryFrag (cs : List Char) : Option String × Option String :=
  match cs with
  | '?' :: rest =>
    let (q, r) := takeUntil ['#'] rest
    (some (String.mk q),
      match r with
      | _ :: f => some (String.mk f)
      | [] => none)
  | '#' :: rest => (none, some (String.mk rest))
  | _ => (none, none)

/-- `Url::parse`, on the embedded grammar. -/
def Url.parse (s : String) : Option Url :=
  let (schemeCs, rest1) := takeUntil [':'] s.data
  match rest1 with
  | _ :: rest2 =>
    if validScheme schemeCs then
      let scheme := String.mk (schemeCs.map Char.toLower)
      match rest2 with
      | '/' :: '/' :: rest3 =>
        let (authCs, rest4) := takeUntil ['/', '?', '#'] rest3
        match parseAuthority authCs with
        | none => none
        | some (host, explicitPort) =>
          let port :=
            match explicitPort with
            | some p => if defaultPortOf scheme = some p then none else some p
            | none => none
          let (pathCs, rest5) := takeUntil ['?', '#'] rest4
          let path := if pathCs = [] ∧ isSpecial scheme then "/" else String.mk pathCs
          let (query, fragment) := parseQueryFrag rest5
          some ⟨scheme, some host, port, path, query, fragment⟩
      | _ =>
        if isSpecial scheme then none
        else
          let (pathCs, rest5) := takeUntil ['?', '#'] rest2
          let (query, fragment) := parseQueryFrag rest5
          some ⟨scheme, none, none, String.mk pathCs, query, fragment⟩
    else none
  | [] => none

/-! ## `get_url_with_port` (`mod.rs` lines 78-83) and `get_rpc_url`
(`mod.rs` lines 51-60) -/

/-- `pub fn get_url_with_port(url_str: &str) -> Option<String>`:
parse, compute the default port (443 only for https with no port, else
80), and format `"{}://{}:{}{}"` from scheme, host, port and path —
returning `None` when parsing fails or the URL has no host. -/
def get_url_with_port (url_str : String) : Option String := do
  let url ← Url.parse url_str
  let default_port := url.scheme == "https" && url.port.isNone
  let port := url.port.getD (if default_port then 443 else 80)
  let host ← url.host
  pure (url.scheme ++ "://" ++ host ++ ":" ++ toString port ++ url.path)

/-- `pub fn get_rpc_url(rpc_url: &Option<String>) -> eyre::Result<String>`:
normalize a present URL (failing with "Invalid RPC_URL" when
normalization yields nothing), and fail with the missing-parameter
message when absent. -/
def get_rpc_url : Option String → Except String String
  | some url =>
    match get_url_with_port url with
    | some rpc_url => .ok rpc_url
    | none => .error "Invalid RPC_URL"
  | none =>
    .error "RPC URL was not provided. Try using --rpc-url flag or environment variable 'ETH_RPC_URL= '"

/-! ## `forge build` (`crates/forge/bin/cmd/build.rs`)

`BuildArgs::run` sequences: load config → materialize project → install
missing dependencies → conditionally reload config/project → build and
run the primary `ProjectCompiler` → optionally emit JSON → when
`config.zksync`, build a second `ProjectCompiler` and run
`zksync_compile` → optionally emit its JSON → return the primary output.
The external collaborators (config loading, `install`, the compiler
pipelines, serialization) are parameters of the run, gathered in a
`BuildWorld`; their results are arbitrary. Standard output is modelled as
the list of printed JSON documents. -/

/-- `SkipBuildFilter` (`foundry_common::compile`): named filename filters;
the build args accept `tests`, `scripts` or a custom suffix. -/
inductive SkipBuildFilter where
  | tests
  | scripts
  | custom (s : String)
deriving DecidableEq, Repr

/-- Modelled from the spec: `ProjectCompiler` (in `foundry_common`, whose
source is not part of the sample) is a compiler-pipeline builder carrying
the name/size reporting flags, the quiet and bail modes, and an optional
skip-filter stage; each builder method sets one field. -/
structure ProjectCompiler where
  names : Bool
  sizes : Bool
  quietMode : Bool
  bailMode : Bool
  filterStage : Option (List SkipBuildFilter)
deriving DecidableEq, Repr

/-- `ProjectCompiler::new()`. -/
def ProjectCompiler.new : ProjectCompiler :=
  ⟨false, false, false, true, none⟩

/-- Builder method `print_names`. -/
def ProjectCompiler.print_names (c : ProjectCompiler) (b : Bool) : ProjectCompiler :=
  { c with names := b }

/-- Builder method `print_sizes`. -/
def ProjectCompiler.print_sizes (c : ProjectCompiler) (b : Bool) : ProjectCompiler :=
  { c with sizes := b }

/-- Builder method `quiet`. -/
def ProjectCompiler.quiet (c : ProjectCompiler) (b : Bool) : ProjectCompiler :=
  { c with quietMode := b }

/-- Builder method `bail`. -/
def ProjectCompiler.bail (c : ProjectCompiler) (b : Bool) : ProjectCompiler :=
  { c with bailMode := b }

/-- Builder method `filter`, installing a skip-filter stage. -/
def ProjectCompiler.filter (c : ProjectCompiler) (f : List SkipBuildFilter) : ProjectCompiler :=
  { c with filterStage := some f }

/-- The fields of the resolved `Config` that `BuildArgs::run` reads. -/
structure Config where
  auto_detect_remappings : Bool
  zksync : Bool
deriving DecidableEq, Repr

/-- The fields of `BuildArgs` that `run` reads (`names`, `sizes`, `skip`,
`format_json`, and `args.silent` passed to the installer). -/
structure BuildArgs where
  names : Bool
  sizes : Bool
  skip : Option (List SkipBuildFilter)
  format_json : Bool
  silent : Bool
deriving DecidableEq, Repr

/-- Opaque project handle materialized by `config.project()`. -/
abbrev Project := Nat

/-- Opaque primary compilation output (`ProjectCompileOutput`). -/
abbrev CompileOutput := Nat

/-- Opaque secondary compilation output. -/
abbrev ZkCompileOutput := Nat

/-- Errors propagated by `?` in `run`, kept abstract as messages. -/
abbrev Err := String

/-- The external collaborators `BuildArgs::run` calls, as oracle
functions: config loading, project materialization, the dependency
installer's changed flag (modelled from the spec as a report of whether
anything changed, with no mutation of the config snapshot), the two
compiler pipelines, `SkipBuildFilters::new`, and JSON serialization. -/
structure BuildWorld where
  tryLoadConfig : Except Err Config
  loadConfig : Config
  project : Config → Except Err Project
  installChanged : Bool
  skipFiltersNew : List SkipBuildFilter → Except Err (List SkipBuildFilter)
  compile : ProjectCompiler → Project → Except Err CompileOutput
  zksyncCompile : ProjectCompiler → Project → Except Err ZkCompileOutput
  outputJson : CompileOutput → String
  zkOutputJson : ZkCompileOutput → String

/-- Lines 90-99: the primary pipeline —
`ProjectCompiler::new().print_names(..).print_sizes(..).quiet(..).bail(..)`,
then `if let Some(skip) = self.skip { if !skip.is_empty() {
compiler = compiler.filter(SkipBuildFilters::new(skip)?) } }`. -/
def mkCompiler (args : BuildArgs) (w : BuildWorld) : Except Err ProjectCompiler :=
  let compiler := ProjectCompiler.new
    |>.print_names args.names
    |>.print_sizes args.sizes
    |>.quiet args.format_json
    |>.bail (!args.format_json)
  match args.skip with
  | some skip =>
    if skip.isEmpty then .ok compiler
    else
      match w.skipFiltersNew skip with
      | .ok f => .ok (compiler.filter f)
      | .error e => .error e
  | none => .ok compiler

/-- Lines 107-111: the secondary pipeline — the same four builder calls
and nothing else. -/
def mkZkCompiler (args : BuildArgs) : ProjectCompiler :=
  ProjectCompiler.new
    |>.print_names args.names
    |>.print_sizes args.sizes
    |>.quiet args.format_json
    |>.bail (!args.format_json)

/-- Lines 82-88: `if install_missing_dependencies(&mut config, ..) &&
config.auto_detect_remappings { config = self.load_config();
project = config.project()?; }` — returns the config and project used for
the rest of the run. -/
def reconfigure (w : BuildWorld) (config : Config) (project : Project) :
    Config × Except Err Project :=
  if w.installChanged && config.auto_detect_remappings then
    (w.loadConfig, w.project w.loadConfig)
  else
    (config, .ok project)

/-- Lines 90-118, after config and project are settled: primary compile,
JSON emission, conditional secondary compile with its own JSON emission,
then `Ok(output)`. Returns (printed JSON documents, function result). -/
def runCompile (args : BuildArgs) (w : BuildWorld) (config : Config) (project : Project) :
    List String × Except Err CompileOutput :=
  match mkCompiler args w with
  | .error e => ([], .error e)
  | .ok compiler =>
    match w.compile compiler project with
    | .error e => ([], .error e)
    | .ok output =>
      let printed := if args.format_json then [w.outputJson output] else []
      if config.zksync then
        match w.zksyncCompile (mkZkCompiler args) project with
        | .error e => (printed, .error e)
        | .ok zk_output =>
          (printed ++ (if args.format_json then [w.zkOutputJson zk_output] else []),
            .ok output)
      else
        (printed, .ok output)

/-- `pub fn run(self) -> Result<ProjectCompileOutput>`
(lines 78-119 in full). -/
def run (args : BuildArgs) (w : BuildWorld) : List String × Except Err CompileOutput :=
  match w.tryLoadConfig with
  | .error e => ([], .error e)
  | .ok config0 =>
    match w.project config0 with
    | .error e => ([], .error e)
    | .ok project0 =>
      match reconfigure w config0 project0 with
      | (_, .error e) => ([], .error e)
      | (config, .ok project) => runCompile args w config project

/-- A concrete world used to evaluate the run at concrete inputs: config
loading succeeds with a zksync-enabled, auto-remapping config, the
installer reports a change, the primary pipeline succeeds with output
`7`, and the secondary pipeline fails. -/
def w0 : BuildWorld where
  tryLoadConfig := .ok ⟨true, true⟩
  loadConfig := ⟨true, true⟩
  project := fun _ => .ok 0
  installChanged := true
  skipFiltersNew := fun l => .ok l
  compile := fun _ _ => .ok 7
  zksyncCompile := fun _ _ => .error "zk compilation failed"
  outputJson := fun o => "json " ++ toString o
  zkOutputJson := fun o => "zkjson " ++ toString o

/-- The missing-RPC-URL message of `get_rpc_url` (`mod.rs` line 58). -/
def rpcUrlMissingMsg : String :=
  "RPC URL was not provided. Try using --rpc-url flag or environment variable 'ETH_RPC_URL= '"

/-! ## Theorems settling the claims -/

/-- C7: `fix_l2_gas_price` is total and error-free (it is a plain
function of `U256`); for every u256 `x` the result is at least
260,000,000, equals `x` whenever `x ≥ 260,000,000`, is idempotent and
monotone — a floor at 260,000,000, i.e. `max(x, 260_000_000)`. -/
theorem fix_l2_gas_price_floor (x : U256) :
    (260000000 : U256) ≤ fix_l2_gas_price x ∧
    ((260000000 : U256) ≤ x → fix_l2_gas_price x = x) ∧
    fix_l2_gas_price (fix_l2_gas_price x) = fix_l2_gas_price x ∧
    (∀ y : U256, x ≤ y → fix_l2_gas_price x ≤ fix_l2_gas_price y) ∧
    fix_l2_gas_price x = max x (260000000 : U256) := by
  refine ⟨le_max_right _ _, fun h => max_eq_left h, ?_,
    fun y hxy => max_le_max hxy le_rfl, rfl⟩
  simp [fix_l2_gas_price, max_assoc]

/-- Witness for C7 at concrete inputs. -/
theorem fix_l2_gas_price_floor_witness :
    fix_l2_gas_price 300000000 = 300000000 ∧
    fix_l2_gas_price 100 ≤ fix_l2_gas_price 200 :=
  ⟨(fix_l2_gas_price_floor 300000000).2.1 (by decide),
    (fix_l2_gas_price_floor 100).2.2.2.1 200 (by decide)⟩

/-- C8: `fix_l2_gas_limit` is total and error-free; for every u256 `x`
the result is at most `2^31 - 1`, equals `x` whenever `x ≤ 2^31 - 1`, is
idempotent and monotone — a ceiling at `2^31 - 1`, i.e.
`min(x, 2^31 - 1)`. -/
theorem fix_l2_gas_limit_ceiling (x : U256) :
    fix_l2_gas_limit x ≤ (2147483647 : U256) ∧
    (x ≤ (2147483647 : U256) → fix_l2_gas_limit x = x) ∧
    fix_l2_gas_limit (fix_l2_gas_limit x) = fix_l2_gas_limit x ∧
    (∀ y : U256, x ≤ y → fix_l2_gas_limit x ≤ fix_l2_gas_limit y) ∧
    fix_l2_gas_limit x = min x (2147483647 : U256) := by
  have hc : ((4294967295 >>> 1 : Nat) : U256) = (2147483647 : U256) := by decide
  refine ⟨?_, fun h => ?_, ?_, fun y hxy => min_le_min hxy le_rfl, ?_⟩
  · rw [fix_l2_gas_limit, hc]; exact min_le_right _ _
  · rw [fix_l2_gas_limit, hc]; exact min_eq_left h
  · simp [fix_l2_gas_limit, min_assoc]
  · rw [fix_l2_gas_limit, hc]

/-- Witness for C8 at concrete inputs. -/
theorem fix_l2_gas_limit_ceiling_witness :
    fix_l2_gas_limit 1000 = 1000 ∧
    fix_l2_gas_limit 100 ≤ fix_l2_gas_limit 200 :=
  ⟨(fix_l2_gas_limit_ceiling 1000).2.1 (by decide),
    (fix_l2_gas_limit_ceiling 100).2.2.2.1 200 (by decide)⟩

/-- C10: every private-key string starting with the conventional "0x"
prefix is rejected by `get_private_key` with an error: the hex decoder
accepts only bare hex digits, so the character `x` (or, for odd total
length, the length check) makes decoding fail rather than stripping the
prefix. -/
theorem get_private_key_rejects_0x_prefix (rest : List Char) :
    (get_private_key (some (String.mk ('0' :: 'x' :: rest)))).isErr = true := by
  have h0 : hexDigit? '0' = some 0 := by decide
  have hx : hexDigit? 'x' = none := by decide
  by_cases hpar : ('0' :: 'x' :: rest).length % 2 = 0
  · have hdec : hexDecode (String.mk ('0' :: 'x' :: rest)) =
        .error (.invalidHexCharacter 'x' 1) := by
      unfold hexDecode
      simp only [String.data]
      rw [if_neg (by simpa using hpar)]
      rw [decodePairs, h0, hx]
    simp [get_private_key, hdec, PKResult.isErr]
  · have hdec : hexDecode (String.mk ('0' :: 'x' :: rest)) = .error .oddLength := by
      unfold hexDecode
      simp only [String.data]
      rw [if_pos (by simpa using hpar)]
    simp [get_private_key, hdec, PKResult.isErr]

/-- C1 counterexample: `"aa"` is valid hex (decoding to one byte), yet
`get_private_key` does not return `Ok` or `Err` on it — `H256::from_slice`
aborts on the 1-byte slice. -/
theorem get_private_key_panics_on_short_key :
    get_private_key (some "aa") = .panic "H256::from_slice: slice length is not 32" := by
  decide

/-- C1 (amended): for every present private-key string, invalid hex
yields `Err` wrapping the decode diagnostic, valid hex decoding to
exactly 32 bytes yields `Ok` with those bytes, and valid hex of any other
decoded length aborts (panics) in `H256::from_slice` instead of
returning `Err`; an absent key yields `Err` with the
missing-parameter message. -/
theorem get_private_key_characterization (s : String) :
    (∀ bytes, hexDecode s = .ok bytes → bytes.length = 32 →
      get_private_key (some s) = .ok bytes) ∧
    (∀ bytes, hexDecode s = .ok bytes → bytes.length ≠ 32 →
      get_private_key (some s) = .panic "H256::from_slice: slice length is not 32") ∧
    (∀ e, hexDecode s = .error e →
      get_private_key (some s) = .err ("Error parsing private key: " ++ e.msg)) ∧
    get_private_key none =
      .err "Private key was not provided. Try using --private-key flag" := by
  refine ⟨fun bytes hdec hlen => ?_, fun bytes hdec hlen => ?_, fun e hdec => ?_, rfl⟩
  · simp [get_private_key, hdec, H256.from_slice, hlen]
  · simp [get_private_key, hdec, H256.from_slice, hlen]
  · simp [get_private_key, hdec]

/-- Witness for the amended C1 at concrete inputs: a 64-digit hex string
gives `Ok`, a 4-digit one panics, a non-hex one errors, and an absent
key errors. -/
theorem get_private_key_characterization_witness :
    get_private_key (some (String.mk (List.replicate 64 'a'))) =
      .ok (List.replicate 32 170) ∧
    get_private_key (some "aaaa") = .panic "H256::from_slice: slice length is not 32" ∧
    get_private_key (some "zz") =
      .err ("Error parsing private key: " ++
        FromHexError.msg (.invalidHexCharacter 'z' 0)) ∧
    get_private_key none =
      .err "Private key was not provided. Try using --private-key flag" :=
  ⟨(get_private_key_characterization _).1 (List.replicate 32 170) (by decide) (by decide),
    (get_private_key_characterization "aaaa").2.1 [170, 170] (by decide) (by decide),
    (get_private_key_characterization "zz").2.2.1 (.invalidHexCharacter 'z' 0) (by decide),
    (get_private_key_characterization "").2.2.2⟩

set_option maxRecDepth 8192 in
/-- C9: `get_rpc_url` fails on an absent input with the missing-parameter
message, which names both the `--rpc-url` flag and the `ETH_RPC_URL`
environment variable; on a present input it fails with the
"Invalid RPC_URL" message exactly when URL normalization yields no value,
and returns the normalized URL whenever normalization succeeds. -/
theorem get_rpc_url_resolution :
    (get_rpc_url none = .error rpcUrlMissingMsg ∧
      "--rpc-url".data <:+: rpcUrlMissingMsg.data ∧
      "ETH_RPC_URL".data <:+: rpcUrlMissingMsg.data) ∧
    (∀ s, get_url_with_port s = none →
      get_rpc_url (some s) = .error "Invalid RPC_URL") ∧
    (∀ s u, get_url_with_port s = some u → get_rpc_url (some s) = .ok u) := by
  refine ⟨⟨rfl, by decide, by decide⟩, fun s hs => ?_, fun s u hu => ?_⟩
  · simp [get_rpc_url, hs]
  · simp [get_rpc_url, hu]

/-- Witness for C9 at concrete inputs: an unparsable string is rejected
as invalid, a parsable one resolves to its normalized form. -/
theorem get_rpc_url_resolution_witness :
    get_rpc_url (some "") = .error "Invalid RPC_URL" ∧
    get_rpc_url (some "http://a") = .ok "http://a:80/" :=
  ⟨get_rpc_url_resolution.2.1 "" (by decide),
    get_rpc_url_resolution.2.2 "http://a" "http://a:80/" (by decide)⟩

/-- C5: for every string parsing as a URL with a host and no explicit
port, `get_url_with_port` attaches port 443 when the scheme is https and
port 80 for every other scheme; for every string that does not parse, and
for every parsed URL without a host, it returns `none` rather than an
error. -/
theorem get_url_with_port_default_ports :
    (∀ s u h, Url.parse s = some u → u.host = some h → u.port = none →
      get_url_with_port s =
        some (u.scheme ++ "://" ++ h ++ ":" ++
          (if u.scheme = "https" then "443" else "80") ++ u.path)) ∧
    (∀ s, Url.parse s = none → get_url_with_port s = none) ∧
    (∀ s u, Url.parse s = some u → u.host = none →
      get_url_with_port s = none) := by
  refine ⟨fun s u h hu hh hp => ?_, fun s hs => ?_, fun s u hu hh => ?_⟩
  · rw [get_url_with_port, hu]
    by_cases hsc : u.scheme = "https" <;>
      simp [Option.bind, hh, hp, hsc] <;> rfl
  · rw [get_url_with_port, hs]; rfl
  · rw [get_url_with_port, hu]
    simp [Option.bind, hh]

/-- Witness for C5 at concrete inputs: https gets port 443, another
scheme gets port 80, a non-URL and a host-less URL yield `none`. -/
theorem get_url_with_port_default_ports_witness :
    get_url_with_port "https://example.com" = some "https://example.com:443/" ∧
    get_url_with_port "http://a" = some "http://a:80/" ∧
    get_url_with_port "notaurl" = none ∧
    get_url_with_port "mailto:hello" = none :=
  ⟨get_url_with_port_default_ports.1 "https://example.com"
      ⟨"https", some "example.com", none, "/", none, none⟩ "example.com"
      (by decide) rfl rfl,
    get_url_with_port_default_ports.1 "http://a"
      ⟨"http", some "a", none, "/", none, none⟩ "a" (by decide) rfl rfl,
    get_url_with_port_default_ports.2.1 "notaurl" (by decide),
    get_url_with_port_default_ports.2.2 "mailto:hello"
      ⟨"mailto", none, none, "hello", none, none⟩ (by decide) rfl⟩

/-- C4 counterexample: `"http://example.com:8080/p?q=1"` parses with a
host and the explicit port 8080, yet `get_url_with_port` returns
`"http://example.com:8080/p"` — the query component is dropped, so the
input is neither returned unchanged nor are all its components
preserved. -/
theorem get_url_with_port_drops_query :
    Url.parse "http://example.com:8080/p?q=1" =
      some ⟨"http", some "example.com", some 8080, "/p", some "q=1", none⟩ ∧
    get_url_with_port "http://example.com:8080/p?q=1" =
      some "http://example.com:8080/p" ∧
    "http://example.com:8080/p" ≠ "http://example.com:8080/p?q=1" := by
  decide

/-- C4 (amended): for every string parsing as a URL with a host and an
explicit port, `get_url_with_port` returns
`scheme://host:port/path` with that port — the scheme, host, port and
path components are preserved, but the query, fragment and userinfo
components are dropped, so the result need not equal the input. -/
theorem get_url_with_port_explicit_port (s : String) (u : Url) (h : String) (p : Nat)
    (hu : Url.parse s = some u) (hh : u.host = some h) (hp : u.port = some p) :
    get_url_with_port s = some (u.scheme ++ "://" ++ h ++ ":" ++ toString p ++ u.path) := by
  rw [get_url_with_port, hu]
  simp [Option.bind, hh, hp]

/-- Witness for the amended C4 at a concrete input. -/
theorem get_url_with_port_explicit_port_witness :
    get_url_with_port "http://example.com:8080/p?q=1" =
      some ("http" ++ "://" ++ "example.com" ++ ":" ++ toString 8080 ++ "/p") :=
  get_url_with_port_explicit_port "http://example.com:8080/p?q=1"
    ⟨"http", some "example.com", some 8080, "/p", some "q=1", none⟩
    "example.com" 8080 (by decide) rfl rfl

/-- C6: the configuration is reloaded and the project re-materialized if
and only if the installer reported a change AND automatic-remapping
detection is enabled in the resolved configuration; otherwise the
original configuration snapshot and project handle are kept. -/
theorem reconfigure_iff (w : BuildWorld) (c : Config) (p : Project) :
    (w.installChanged = true → c.auto_detect_remappings = true →
      reconfigure w c p = (w.loadConfig, w.project w.loadConfig)) ∧
    (w.installChanged = false ∨ c.auto_detect_remappings = false →
      reconfigure w c p = (c, .ok p)) := by
  constructor
  · intro hi ha
    simp [reconfigure, hi, ha]
  · rintro (hi | ha)
    · simp [reconfigure, hi]
    · simp [reconfigure, ha]

/-- Witness for C6 at concrete inputs: with a change reported and
auto-detection enabled the reloaded pair is used; with no change
reported the original pair is kept. -/
theorem reconfigure_iff_witness :
    reconfigure w0 ⟨true, true⟩ 5 = (w0.loadConfig, w0.project w0.loadConfig) ∧
    reconfigure { w0 with installChanged := false } ⟨true, true⟩ 5 =
      (⟨true, true⟩, .ok 5) :=
  ⟨(reconfigure_iff w0 ⟨true, true⟩ 5).1 rfl rfl,
    (reconfigure_iff { w0 with installChanged := false } ⟨true, true⟩ 5).2 (.inl rfl)⟩

/-- C2 counterexample: with `--skip tests` requested, the primary
pipeline instance carries the skip-filter stage but the secondary
(layer-2) one carries none, so the two instances are not equivalently
configured. -/
theorem zk_compiler_missing_filter_cex :
    mkCompiler ⟨false, false, some [.tests], false, false⟩ w0 =
      .ok ⟨false, false, false, true, some [.tests]⟩ ∧
    mkZkCompiler ⟨false, false, some [.tests], false, false⟩ =
      ⟨false, false, false, true, none⟩ ∧
    (some [SkipBuildFilter.tests] : Option (List SkipBuildFilter)) ≠ none := by
  refine ⟨rfl, rfl, by decide⟩

/-- C2 (amended): whenever the primary pipeline instance is built
successfully, the secondary instance matches it in the name-printing and
size-printing flags and in the quiet-iff-json and bail-unless-json
modes — but no skip-filter stage is ever installed on the secondary
instance, even when the request's skip list is present and non-empty. -/
theorem zk_compiler_flags_match_but_no_filter (args : BuildArgs) (w : BuildWorld)
    (c : ProjectCompiler) (hc : mkCompiler args w = .ok c) :
    (mkZkCompiler args).names = c.names ∧
    (mkZkCompiler args).sizes = c.sizes ∧
    (mkZkCompiler args).quietMode = c.quietMode ∧
    (mkZkCompiler args).bailMode = c.bailMode ∧
    (mkZkCompiler args).quietMode = args.format_json ∧
    (mkZkCompiler args).bailMode = (!args.format_json) ∧
    (mkZkCompiler args).filterStage = none := by
  have hbase : ∀ f, c = { mkZkCompiler args with filterStage := f } →
      (mkZkCompiler args).names = c.names ∧
      (mkZkCompiler args).sizes = c.sizes ∧
      (mkZkCompiler args).quietMode = c.quietMode ∧
      (mkZkCompiler args).bailMode = c.bailMode ∧
      (mkZkCompiler args).quietMode = args.format_json ∧
      (mkZkCompiler args).bailMode = (!args.format_json) ∧
      (mkZkCompiler args).filterStage = none := by
    rintro f rfl
    refine ⟨rfl, rfl, rfl, rfl, rfl, rfl, rfl⟩
  rcases hskip : args.skip with _ | skip
  · simp [mkCompiler, hskip] at hc
    exact hbase none hc.symm
  · by_cases he : skip.isEmpty
    · simp [mkCompiler, hskip, he] at hc
      exact hbase none hc.symm
    · rcases hf : w.skipFiltersNew skip with e | f
      · simp [mkCompiler, hskip, he, hf] at hc
      · simp [mkCompiler, hskip, he, hf] at hc
        exact hbase (some f) hc.symm

/-- Witness for the amended C2 at a concrete input with a non-empty skip
list. -/
theorem zk_compiler_flags_match_but_no_filter_witness :
    (mkZkCompiler ⟨true, true, some [.tests], true, false⟩).quietMode = true ∧
    (mkZkCompiler ⟨true, true, some [.tests], true, false⟩).filterStage = none :=
  ⟨(zk_compiler_flags_match_but_no_filter ⟨true, true, some [.tests], true, false⟩ w0
      ⟨true, true, true, false, some [.tests]⟩ rfl).2.2.2.2.1,
    (zk_compiler_flags_match_but_no_filter ⟨true, true, some [.tests], true, false⟩ w0
      ⟨true, true, true, false, some [.tests]⟩ rfl).2.2.2.2.2.2⟩

/-- C3 counterexample: in a run whose primary pass succeeds (with output
`7`) and whose secondary pass fails, the run's result is the secondary
error — the primary output is NOT made available as the result. -/
theorem run_zk_failure_discards_primary_cex :
    w0.compile ⟨false, false, false, true, none⟩ 0 = .ok 7 ∧
    run ⟨false, false, none, false, false⟩ w0 =
      ([], .error "zk compilation failed") := by
  exact ⟨rfl, rfl⟩

/-- C3 (amended): for every run in which the primary pass succeeds and
the secondary pass fails on a zksync-enabled configuration, the run
reports the secondary failure as its result (the primary output value is
not returned), while whatever the primary pass already emitted — its
JSON document when requested — is retained, not rolled back. -/
theorem runCompile_zk_failure (args : BuildArgs) (w : BuildWorld) (config : Config)
    (project : Project) (compiler : ProjectCompiler) (output : CompileOutput) (e : Err)
    (hc : mkCompiler args w = .ok compiler)
    (ho : w.compile compiler project = .ok output)
    (hz : config.zksync = true)
    (he : w.zksyncCompile (mkZkCompiler args) project = .error e) :
    runCompile args w config project =
      ((if args.format_json then [w.outputJson output] else []), .error e) := by
  simp [runCompile, hc, ho, hz, he]

/-- Witness for the amended C3 at a concrete input with JSON output
requested: the primary document stays on standard output while the
result is the secondary error. -/
theorem runCompile_zk_failure_witness :
    runCompile ⟨false, false, none, true, false⟩ w0 ⟨true, true⟩ 0 =
      (["json 7"], .error "zk compilation failed") :=
  runCompile_zk_failure ⟨false, false, none, true, false⟩ w0 ⟨true, true⟩ 0
    ⟨false, false, true, false, none⟩ 7 "zk compilation failed" rfl rfl rfl rfl

end FoundryZkSync
